import Mathlib

/-!
Verification of the TrackMyFix real-time update fan-out subsystem.

This file gives a shallow embedding of the relevant TypeScript sources
(`src/lib/store.ts`, `src/lib/job-events.ts`, the job stream route, the
owner stream route, and the technician task route) and proves properties
of the embedded definitions.

Modelling conventions:
* ISO-8601 timestamp strings (always produced by `new Date().toISOString()`
  and compared via `new Date(x).getTime()`) are modelled as natural numbers
  (epoch milliseconds); lexicographic order on the ISO strings agrees with
  numeric order on the instants.
* JavaScript numbers are IEEE-754 binary64 doubles.  The projector's
  `(completedTasks / totalTasks) * 100` performs one round-to-nearest-even
  at the division and one at the multiplication; both are modelled exactly
  by integer arithmetic (`roundFracToDouble` and friends), so the model
  reproduces the program's values bit for bit (for example 23 of 40 tasks
  gives the double 57.49999999999999 and hence 57 percent, not the 58 of
  exact half-up rounding).  ECMAScript `Math.round` applied to the exact
  value of a nonnegative double is the natural-number floor of `x + 1/2`
  (`jsMathRoundFrac` on fractions; `jsMathRound` over the rationals states
  the same rounding at the specification level).
* `Array.prototype.sort` with a comparator is, by the ECMAScript
  specification, a stable sort consistent with the comparator; it is modelled
  by a stable insertion sort with the comparator's order.
* Redis counter values (created by `INCR`, read back as numbers) are modelled
  as natural numbers; the key space is `String`.
* The per-connection stream sessions are modelled as explicit transition
  systems: a state, an input event alphabet (timer ticks, completions of
  in-flight reads, in-process emitter deliveries, external counter changes,
  cancellation), and a step function returning the next state together with
  the list of observable actions (counter reads, data pushes, keep-alive
  lines, errors escaping a callback).
-/

/-- `AssignedTechnician` from `src/lib/types.ts`. -/
structure AssignedTechnician where
  id : String
  name : String
  phone : Option String
deriving DecidableEq, Repr

/-- `OwnerTechnician` from `src/lib/types.ts`. -/
structure OwnerTechnician where
  id : String
  name : String
  phone : Option String
deriving DecidableEq, Repr

/-- `JobTask` from `src/lib/types.ts` (`updatedAt` modelled as epoch ms). -/
structure JobTask where
  id : String
  name : String
  completed : Bool
  updatedAt : Nat
deriving DecidableEq, Repr

/-- `JobNoteEntry` from `src/lib/types.ts` (`createdAt` modelled as epoch ms). -/
structure JobNoteEntry where
  id : String
  authorName : String
  authorTechnicianId : Option String
  message : String
  createdAt : Nat
deriving DecidableEq, Repr

/-- `Job` from `src/lib/types.ts`. -/
structure Job where
  id : String
  ownerId : String
  title : String
  businessName : String
  customerName : String
  customerPhone : Option String
  location : String
  businessPhone : String
  assignedTechnician : Option AssignedTechnician
  noteEntries : List JobNoteEntry
  tasks : List JobTask
  technicianToken : String
  customerToken : String
  createdAt : Nat
  updatedAt : Nat
deriving DecidableEq, Repr

/-- `Owner` from `src/lib/types.ts`. -/
structure Owner where
  id : String
  name : String
  email : String
  businessName : String
  businessPhone : String
  technicians : List OwnerTechnician
  createdAt : Nat
deriving DecidableEq, Repr

/-- `Template` from `src/lib/types.ts`. -/
structure Template where
  id : String
  ownerId : String
  name : String
  tasks : List String
  createdAt : Nat
deriving DecidableEq, Repr

/-- `StoreData` from `src/lib/types.ts`. -/
structure StoreData where
  owners : List Owner
  templates : List Template
  jobs : List Job
deriving DecidableEq, Repr

/-- `JobSession` from `src/lib/types.ts`: the snapshot type produced by the
Snapshot Projector `toJobSession`. -/
structure JobSession where
  id : String
  title : String
  businessName : String
  customerName : String
  customerPhone : Option String
  location : String
  businessPhone : String
  assignedTechnician : Option AssignedTechnician
  noteEntries : List JobNoteEntry
  tasks : List JobTask
  updatedAt : Nat
  progressPercent : Nat
  completedTasks : Nat
  totalTasks : Nat
  allCompleted : Bool
deriving DecidableEq, Repr

/-- The order used by the comparator in `sortNoteEntriesDesc`
(`src/lib/store.ts` lines 265-269): `(a, b) => b.createdAt - a.createdAt`
places `a` before `b` exactly when `b.createdAt ≤ a.createdAt`. -/
def noteLe (a b : JobNoteEntry) : Prop :=
  b.createdAt ≤ a.createdAt

instance : DecidableRel noteLe :=
  fun a b => Nat.decLe b.createdAt a.createdAt

instance : IsTotal JobNoteEntry noteLe :=
  ⟨fun a b => le_total b.createdAt a.createdAt⟩

instance : IsTrans JobNoteEntry noteLe :=
  ⟨fun _ _ _ hab hbc => le_trans hbc hab⟩

/-- `sortNoteEntriesDesc` from `src/lib/store.ts`: sorts a copy of the note
list by creation time descending.  `[...noteEntries].sort(comparator)` is a
stable sort of a fresh copy; it is modelled by stable insertion sort under
the comparator's order `noteLe`. -/
def sortNoteEntriesDesc (noteEntries : List JobNoteEntry) : List JobNoteEntry :=
  List.insertionSort noteLe noteEntries

/-- ECMAScript `Math.round` on the exact (here nonnegative) value of a
double, stated over the rationals: round half towards positive infinity.
This is the specification-level description of the final rounding step. -/
def jsMathRound (x : ℚ) : ℕ :=
  Nat.floor (x + 1 / 2)

/-- Number of binary digits of `n`, computed with a structural fuel so the
kernel can evaluate it (`bitLenAux fuel n` is `bitLen n` whenever
`n < 2 ^ fuel`). -/
def bitLenAux : Nat → Nat → Nat
  | 0, _ => 0
  | fuel + 1, n => if n ≤ 1 then n else bitLenAux fuel (n / 2) + 1

/-- Number of binary digits of `n`.  The fuel 256 covers every value below
`2 ^ 256`, far beyond anything reachable from the source (array lengths are
below `2 ^ 32` and double scalings stay below `2 ^ 100` here). -/
def bitLen (n : Nat) : Nat :=
  bitLenAux 256 n

/-- `⌊log₂ (a / b)⌋` for a positive fraction `a / b`: the bit-length
difference, corrected by one exact comparison
(`a / b ≥ 2 ^ e₀ ↔ 2 ^ max e₀ 0 * b ≤ 2 ^ max (-e₀) 0 * a`). -/
def floorLog2Frac (a b : ℕ) : ℤ :=
  let e0 : ℤ := (bitLen a : ℤ) - (bitLen b : ℤ)
  if 2 ^ e0.toNat * b ≤ 2 ^ (-e0).toNat * a then e0 else e0 - 1

/-- Round the fraction `na / nb` (with `nb ≠ 0`) to the nearest integer,
ties to even — the IEEE-754 default rounding of a significand. -/
def roundHalfEvenFrac (na nb : ℕ) : ℕ :=
  let q := na / nb
  let r := na % nb
  if 2 * r < nb then q
  else if nb < 2 * r then q + 1
  else if q % 2 = 0 then q else q + 1

/-- Round the positive fraction `a / b` to an IEEE-754 binary64 double
(round to nearest, ties to even, 53-bit significand, unbounded exponent —
exact for the normal range, which amply contains every value arising from
the projector).  Returns `(m, k)` with value `m / 2 ^ k`,
`2 ^ 52 ≤ m ≤ 2 ^ 53`. -/
def roundFracToDouble (a b : ℕ) : ℕ × ℤ :=
  let e := floorLog2Frac a b
  let k : ℤ := 52 - e
  let m := roundHalfEvenFrac (a * 2 ^ k.toNat) (b * 2 ^ (-k).toNat)
  (m, k)

/-- ECMAScript `Math.round` on the exact nonnegative fraction `na / nb`
(with `nb ≠ 0`): `⌊na / nb + 1 / 2⌋ = (2 na + nb) / (2 nb)` in natural
division. -/
def jsMathRoundFrac (na nb : ℕ) : ℕ :=
  (2 * na + nb) / (2 * nb)

/-- The binary64 evaluation of `Math.round((c / t) * 100)` for natural
`c`, `t` with `t ≠ 0`, exactly as the source computes it: `c` and `t` are
exact doubles (array lengths), `c / t` rounds once to a double, the
multiplication by 100 rounds once more, and `Math.round` acts exactly on
the resulting double.  `c = 0` yields the exact double 0 throughout. -/
def jsProgressPercent (c t : ℕ) : ℕ :=
  if c = 0 then 0
  else
    let d := roundFracToDouble c t
    let p := roundFracToDouble (d.1 * 100 * 2 ^ (-d.2).toNat) (2 ^ d.2.toNat)
    jsMathRoundFrac (p.1 * 2 ^ (-p.2).toNat) (2 ^ p.2.toNat)

/-- `toJobSession` from `src/lib/store.ts` lines 271-294: the Snapshot
Projector.  `progressPercent` is `Math.round((completedTasks / totalTasks) * 100)`
when there are tasks, `0` otherwise, computed in binary64 double arithmetic
(`jsProgressPercent`); `allCompleted` is
`totalTasks > 0 && completedTasks === totalTasks`. -/
def toJobSession (job : Job) : JobSession :=
  let totalTasks := job.tasks.length
  let completedTasks := (job.tasks.filter (fun task => task.completed)).length
  let progressPercent :=
    if totalTasks = 0 then 0
    else jsProgressPercent completedTasks totalTasks
  { id := job.id
    title := job.title
    businessName := job.businessName
    customerName := job.customerName
    customerPhone := job.customerPhone
    location := job.location
    businessPhone := job.businessPhone
    assignedTechnician := job.assignedTechnician
    noteEntries := sortNoteEntriesDesc job.noteEntries
    tasks := job.tasks
    updatedAt := job.updatedAt
    progressPercent := progressPercent
    completedTasks := completedTasks
    totalTasks := totalTasks
    allCompleted := decide (0 < totalTasks ∧ completedTasks = totalTasks) }

/-- `getJobById` from `src/lib/store.ts`: first job in the store with the
given id. -/
def getJobById (store : StoreData) (jobId : String) : Option Job :=
  store.jobs.find? (fun job => job.id == jobId)

/-- Redis key for a job's sequence counter (`src/lib/job-events.ts`). -/
def sequenceKey (jobId : String) : String :=
  "trackmyfix:job:seq:" ++ jobId

/-- Redis key for an owner's sequence counter (`src/lib/job-events.ts`). -/
def ownerSequenceKey (ownerId : String) : String :=
  "trackmyfix:owner:seq:" ++ ownerId

/-- The external Sequence Counter Store: one natural-number counter per key
(Redis `INCR` values, absent keys read as 0). -/
def CounterStore : Type :=
  String → Nat

/-- Atomic `INCR` on one key of the counter store. -/
def redisIncr (store : CounterStore) (key : String) : CounterStore :=
  fun k => if k = key then store k + 1 else store k

/-- `incrementJobSequence` from `src/lib/job-events.ts`: a silent no-op when
no Upstash client is configured, otherwise `INCR` on the job's key. -/
def incrementJobSequence (available : Bool) (store : CounterStore)
    (jobId : String) : CounterStore :=
  if available then redisIncr store (sequenceKey jobId) else store

/-- `incrementOwnerSequence` from `src/lib/job-events.ts`. -/
def incrementOwnerSequence (available : Bool) (store : CounterStore)
    (ownerId : String) : CounterStore :=
  if available then redisIncr store (ownerSequenceKey ownerId) else store

/-- `getJobUpdateSequence` from `src/lib/job-events.ts`: reads the job's
counter, returning 0 when no client is configured (values written by `INCR`
are numeric, so the string-parsing fallback is the identity here). -/
def getJobUpdateSequence (available : Bool) (store : CounterStore)
    (jobId : String) : Nat :=
  if available then store (sequenceKey jobId) else 0

/-- `getOwnerUpdateSequence` from `src/lib/job-events.ts`. -/
def getOwnerUpdateSequence (available : Bool) (store : CounterStore)
    (ownerId : String) : Nat :=
  if available then store (ownerSequenceKey ownerId) else 0

/-- Effect of `emitJobUpdated` from `src/lib/job-events.ts` lines 62-67 on
the counter store: `Promise.all([incrementJobSequence(job.id),
incrementOwnerSequence(job.ownerId)])` bumps both counters. -/
def emitJobUpdated (available : Bool) (store : CounterStore) (job : Job) :
    CounterStore :=
  incrementOwnerSequence available (incrementJobSequence available store job.id)
    job.ownerId

/-- The complete call `emitJobUpdated(job)` as seen by the mutating caller.
The body is `void Promise.all([...])`: the function contains no `await` and
no `throw`, so it returns `undefined` to the caller unconditionally (first
component never an error), while the increments run as discarded background
work (second component). -/
def emitJobUpdatedCall (available : Bool) (store : CounterStore) (job : Job) :
    Except String Unit × CounterStore :=
  (Except.ok (), emitJobUpdated available store job)

/-- State of one Job Stream Session after a successful connection
(route `GET` in `src/unnamed/part_004`): whether `unsubscribe` has not yet
been called (the `onJobUpdated` listener is registered) and whether the
heartbeat interval is running. -/
structure JobStreamSessionState where
  subscribed : Bool
  heartbeatActive : Bool
deriving DecidableEq, Repr

/-- Events a connected Job Stream Session can be exposed to. -/
inductive JobStreamEvent where
  /-- `emitJobUpdated(job)` runs in the same process for this session's
  jobId, invoking the `onJobUpdated` callback. -/
  | emitted (job : Job)
  /-- The job's sequence counter changes (for example a mutation handled by
  another server process incremented it); value after the change. -/
  | counterAdvanced (value : Nat)
  /-- The 15s heartbeat interval fires. -/
  | heartbeatTick
  /-- The client disconnects: the stream's `cancel()` runs. -/
  | cancel
deriving DecidableEq, Repr

/-- Observable actions of a Job Stream Session. -/
inductive JobStreamAction where
  /-- `data:` event `{type: "job.updated", job: toJobSession(updatedJob)}`. -/
  | updatedPush (snapshot : JobSession)
  /-- `: ping` keep-alive line. -/
  | keepAlive
  /-- A read of the job's sequence counter. -/
  | counterRead
deriving DecidableEq, Repr

/-- Step function of the Job Stream Session translated from the route `GET`
in `src/unnamed/part_004` lines 37-61.  The route registers exactly three
callbacks: the `onJobUpdated` listener (pushes a fresh snapshot), the
heartbeat interval (enqueues `: ping`), and `cancel` (clears the heartbeat
and unsubscribes).  No poll timer exists and nothing reads
`getJobUpdateSequence`, so a counter change triggers no callback at all. -/
def jobStreamStep (s : JobStreamSessionState) (e : JobStreamEvent) :
    JobStreamSessionState × List JobStreamAction :=
  match e with
  | JobStreamEvent.emitted job =>
      if s.subscribed then (s, [JobStreamAction.updatedPush (toJobSession job)])
      else (s, [])
  | JobStreamEvent.counterAdvanced _ => (s, [])
  | JobStreamEvent.heartbeatTick =>
      if s.heartbeatActive then (s, [JobStreamAction.keepAlive]) else (s, [])
  | JobStreamEvent.cancel =>
      ({ subscribed := false, heartbeatActive := false }, [])

/-- Run a Job Stream Session over a list of events, collecting actions. -/
def runJobStream : JobStreamSessionState → List JobStreamEvent →
    JobStreamSessionState × List JobStreamAction
  | s, [] => (s, [])
  | s, e :: es =>
      let step := jobStreamStep s e
      let rest := runJobStream step.1 es
      (rest.1, step.2 ++ rest.2)

/-- The `isAuthorized` check of the job stream route
(`src/unnamed/part_004` lines 25-27). -/
def jobStreamAuthorized (role token : Option String) (job : Job) : Bool :=
  (role == some "customer" && token == some job.customerToken) ||
    (role == some "technician" && token == some job.technicianToken)

/-- The authorization prelude of the job stream route `GET`
(`src/unnamed/part_004` lines 12-43): returns the HTTP error status on
failure, or the initial `connected` snapshot together with the running
session state on success.  `!token` in the source is true for a missing
query parameter and for the empty string. -/
def jobStreamConnect (store : StoreData) (jobId : String)
    (role token : Option String) :
    Except Nat (JobSession × JobStreamSessionState) :=
  if (role ≠ some "customer" ∧ role ≠ some "technician") ∨
      token = none ∨ token = some "" then
    Except.error 401
  else
    match getJobById store jobId with
    | none => Except.error 404
    | some job =>
        if jobStreamAuthorized role token job then
          Except.ok (toJobSession job,
            { subscribed := true, heartbeatActive := true })
        else
          Except.error 401

/-- Data events delivered on the connection opened by the job stream route:
a failed request is a bare 401/404 response carrying no event; a successful
one starts with the `connected` event holding the initial snapshot. -/
def initialJobStreamEvents
    (r : Except Nat (JobSession × JobStreamSessionState)) : List JobSession :=
  match r with
  | Except.error _ => []
  | Except.ok (snapshot, _) => [snapshot]

/-- State of one Owner Stream Session (route `GET` bundled in
`src/app/api/signup/route.ts` lines 50-121): the `closed` flag, the
re-entrancy guard `polling`, `lastSequence`, and whether the poll and
heartbeat intervals are running. -/
structure OwnerStreamState where
  closed : Bool
  polling : Bool
  lastSequence : Nat
  pollerActive : Bool
  heartbeatActive : Bool
deriving DecidableEq, Repr

/-- Events an Owner Stream Session can be exposed to. -/
inductive OwnerStreamEvent where
  /-- The 1s poll interval fires. -/
  | pollTick
  /-- The in-flight `getOwnerUpdateSequence` read resolves with `current`. -/
  | pollSuccess (current : Nat)
  /-- The in-flight `getOwnerUpdateSequence` read rejects. -/
  | pollFailure
  /-- The 15s heartbeat interval fires. -/
  | heartbeatTick
  /-- The client disconnects: the stream's `cancel()` runs. -/
  | cancel
deriving DecidableEq, Repr

/-- Observable actions of an Owner Stream Session. -/
inductive OwnerStreamAction where
  /-- The session issues a read of the owner's sequence counter. -/
  | counterRead
  /-- `data:` event `{type: "owner.updated", ownerId}`. -/
  | ownerUpdatedPush
  /-- `: ping` keep-alive line. -/
  | keepAlive
  /-- An exception escapes the poll tick callback: the tick body is
  `try {...} finally { polling = false; }` with no catch clause. -/
  | errorEscaped
deriving DecidableEq, Repr

/-- Step function of the Owner Stream Session translated from the route
`GET` bundled in `src/app/api/signup/route.ts` lines 68-112.
A poll tick returns immediately when `closed || polling`, otherwise sets
`polling` and issues the counter read; when the read resolves the session
updates `lastSequence` and sends `owner.updated` if the counter advanced
(`send` itself returns silently once `closed`), and the `finally` clause
resets `polling`; when the read rejects, the `finally` clause still resets
`polling` but the error leaves the callback uncaught.  `cancel()` sets
`closed` and clears both intervals.  A tick of a cleared interval cannot
fire at all. -/
def ownerStreamStep (s : OwnerStreamState) (e : OwnerStreamEvent) :
    OwnerStreamState × List OwnerStreamAction :=
  match e with
  | OwnerStreamEvent.pollTick =>
      if s.pollerActive = false then (s, [])
      else if s.closed ∨ s.polling then (s, [])
      else ({ s with polling := true }, [OwnerStreamAction.counterRead])
  | OwnerStreamEvent.pollSuccess current =>
      if s.polling = false then (s, [])
      else if s.lastSequence < current then
        ({ s with lastSequence := current, polling := false },
          if s.closed then [] else [OwnerStreamAction.ownerUpdatedPush])
      else ({ s with polling := false }, [])
  | OwnerStreamEvent.pollFailure =>
      if s.polling = false then (s, [])
      else ({ s with polling := false }, [OwnerStreamAction.errorEscaped])
  | OwnerStreamEvent.heartbeatTick =>
      if s.heartbeatActive = false then (s, [])
      else if s.closed then (s, [])
      else (s, [OwnerStreamAction.keepAlive])
  | OwnerStreamEvent.cancel =>
      ({ s with closed := true, pollerActive := false, heartbeatActive := false },
        [])

/-- Run an Owner Stream Session over a list of events, collecting actions. -/
def runOwnerStream : OwnerStreamState → List OwnerStreamEvent →
    OwnerStreamState × List OwnerStreamAction
  | s, [] => (s, [])
  | s, e :: es =>
      let step := ownerStreamStep s e
      let rest := runOwnerStream step.1 es
      (rest.1, step.2 ++ rest.2)

/-- A JSON value as relevant to the `completed` field of the PATCH body of
`src/app/api/session/technician/[token]/task/route.ts`. -/
inductive JsonValue where
  | jbool (b : Bool)
  | jstr (s : String)
  | jnum (n : Int)
  | jnull
  | jabsent
deriving DecidableEq, Repr

/-- The route's coercion `typeof body.completed === "boolean" ?
body.completed : undefined`. -/
def patchCompletedParam : JsonValue → Option Bool
  | JsonValue.jbool b => some b
  | _ => none

/-- Inner loop of `updateTaskByTechnicianToken` (`src/lib/store.ts` lines
596-602): `job.tasks.find(...)` returns the first task with the given id and
the subsequent assignments mutate that object in place; modelled by
rebuilding the list with the first match replaced.  Returns `none` when no
task matches (the source then throws `"Task not found."`).
`task.completed = completed ?? !task.completed` toggles when the argument is
`undefined` and assigns it otherwise. -/
def updateTaskInList (now : Nat) (taskId : String) (completed : Option Bool) :
    List JobTask → Option (List JobTask)
  | [] => none
  | task :: rest =>
      if task.id = taskId then
        some ({ task with completed := completed.getD (!task.completed), updatedAt := now } :: rest)
      else
        (updateTaskInList now taskId completed rest).map
          (fun rest2 => task :: rest2)

/-- Outer part of `updateTaskByTechnicianToken`: `store.jobs.find(...)`
returns the first job with the given technician token (mutated in place;
modelled by replacing the first match), `null` is returned when no job
matches, and `job.updatedAt` is refreshed on success.  The source reads the
clock twice (`task.updatedAt` and `job.updatedAt`); both reads are modelled
by the same instant `now`. -/
def updateTaskInJobs (now : Nat) (technicianToken taskId : String)
    (completed : Option Bool) : List Job → Except String (List Job × Option Job)
  | [] => Except.ok ([], none)
  | job :: rest =>
      if job.technicianToken = technicianToken then
        match updateTaskInList now taskId completed job.tasks with
        | none => Except.error "Task not found."
        | some newTasks =>
            let updated := { job with tasks := newTasks, updatedAt := now }
            Except.ok (updated :: rest, some updated)
      else
        match updateTaskInJobs now technicianToken taskId completed rest with
        | Except.error e => Except.error e
        | Except.ok (rest2, found) => Except.ok (job :: rest2, found)

/-- `updateTaskByTechnicianToken` from `src/lib/store.ts` lines 585-607,
acting on the whole store (the `withWriteLock` body). -/
def updateTaskByTechnicianToken (now : Nat) (store : StoreData)
    (technicianToken taskId : String) (completed : Option Bool) :
    Except String (StoreData × Option Job) :=
  match updateTaskInJobs now technicianToken taskId completed store.jobs with
  | Except.error e => Except.error e
  | Except.ok (jobs2, found) =>
      Except.ok ({ store with jobs := jobs2 }, found)

/-- The call of the Snapshot Projector as it acts on the job record: the
source of `toJobSession` only reads `job` (two non-mutating traversals of
`job.tasks`, and the in-place `Array.sort` acts on the spread copy
`[...job.noteEntries]`, never on `job.noteEntries` itself), so the job after
the call is the job before it. -/
def projectCall (job : Job) : JobSession × Job :=
  (toJobSession job, job)

/-- A concrete job used to evaluate the theorems on explicit inputs. -/
def wJob : Job :=
  { id := "job-1", ownerId := "owner-1", title := "Fix sink",
    businessName := "Acme", customerName := "Dana", customerPhone := none,
    location := "12 Main St", businessPhone := "555",
    assignedTechnician := none, noteEntries := [], tasks := [],
    technicianToken := "tech-token", customerToken := "cust-token",
    createdAt := 0, updatedAt := 0 }

/-- A concrete store holding `wJob`. -/
def wStore : StoreData :=
  { owners := [], templates := [], jobs := [wJob] }

/-- A concrete job with three tasks, two of them completed. -/
def c2Job : Job :=
  { wJob with id := "job-2", tasks :=
      [{ id := "t1", name := "a", completed := true, updatedAt := 0 },
       { id := "t2", name := "b", completed := true, updatedAt := 0 },
       { id := "t3", name := "c", completed := false, updatedAt := 0 }] }

/-- A concrete job with four tasks, all completed. -/
def c2DoneJob : Job :=
  { wJob with id := "job-4", tasks :=
      [{ id := "d1", name := "a", completed := true, updatedAt := 0 },
       { id := "d2", name := "b", completed := true, updatedAt := 0 },
       { id := "d3", name := "c", completed := true, updatedAt := 0 },
       { id := "d4", name := "d", completed := true, updatedAt := 0 }] }

/-- A concrete job with 40 tasks of which 23 are completed: an input where
the binary64 evaluation of the progress percentage and exact half-up
rounding of the rational disagree. -/
def c2BadJob : Job :=
  { wJob with id := "job-40", tasks :=
      (List.range 40).map (fun i =>
        { id := "task", name := "task", completed := decide (i < 23),
          updatedAt := 0 }) }

/-- An owner stream session state right after `cancel()` ran while a poll
read was still in flight. -/
def c4ClosedState : OwnerStreamState :=
  { closed := true, polling := true, lastSequence := 0,
    pollerActive := false, heartbeatActive := false }

/-- A live owner stream session state with no poll in flight. -/
def c5ReadyState : OwnerStreamState :=
  { closed := false, polling := false, lastSequence := 0,
    pollerActive := true, heartbeatActive := true }

/-- A live owner stream session state with a poll in flight. -/
def c5BusyState : OwnerStreamState :=
  { c5ReadyState with polling := true }

/-- A live owner stream session state with a poll in flight, used for the
poll-failure scenario. -/
def c6PollingState : OwnerStreamState :=
  { closed := false, polling := true, lastSequence := 0,
    pollerActive := true, heartbeatActive := true }

/-- A concrete not-yet-completed task. -/
def wTask : JobTask :=
  { id := "task-1", name := "replace filter", completed := false,
    updatedAt := 0 }

/-- A concrete job holding `wTask`. -/
def wJobWithTask : Job :=
  { wJob with id := "job-3", tasks := [wTask] }

/-- A concrete store holding `wJobWithTask`. -/
def wStoreWithTask : StoreData :=
  { owners := [], templates := [], jobs := [wJobWithTask] }

/-- Half-up rounding of `c / t * 100` agrees with the closed-form natural
division `(200 c + t) / (2 t)` when `t ≠ 0`. -/
theorem jsMathRound_ratio (c t : ℕ) (ht : t ≠ 0) :
    jsMathRound ((c : ℚ) / (t : ℚ) * 100) = (200 * c + t) / (2 * t) := by
  unfold jsMathRound
  have ht' : (t : ℚ) ≠ 0 := Nat.cast_ne_zero.mpr ht
  have key : (c : ℚ) / (t : ℚ) * 100 + 1 / 2 =
      ((200 * c + t : ℕ) : ℚ) / ((2 * t : ℕ) : ℚ) := by
    push_cast
    field_simp
    ring
  rw [key, Nat.floor_div_nat, Nat.floor_natCast]

/-- The source's `Math.round` step on an exact nonnegative fraction agrees
with the specification-level half-up rounding over the rationals. -/
theorem jsMathRoundFrac_eq (na nb : ℕ) (h : nb ≠ 0) :
    jsMathRoundFrac na nb = jsMathRound ((na : ℚ) / (nb : ℚ)) := by
  unfold jsMathRoundFrac jsMathRound
  have hb : (nb : ℚ) ≠ 0 := Nat.cast_ne_zero.mpr h
  have key : (na : ℚ) / (nb : ℚ) + 1 / 2 =
      ((2 * na + nb : ℕ) : ℚ) / ((2 * nb : ℕ) : ℚ) := by
    push_cast
    field_simp
    ring
  rw [key, Nat.floor_div_nat, Nat.floor_natCast]

/-- A fully completed task list yields exactly 100 percent: `t / t` is the
exact double 1 and `1 * 100` the exact double 100, so no rounding error can
occur at the upper endpoint. -/
theorem jsProgressPercent_self (t : ℕ) (h : t ≠ 0) :
    jsProgressPercent t t = 100 := by
  have ht : 0 < t := Nat.pos_of_ne_zero h
  have hd : roundFracToDouble t t = (2 ^ 52, 52) := by
    unfold roundFracToDouble floorLog2Frac roundHalfEvenFrac
    simp only [sub_self, Int.toNat_zero, neg_zero, pow_zero, one_mul, le_refl,
      if_true]
    have hk1 : ((52 : ℤ) - 0).toNat = 52 := by decide
    have hk2 : (-((52 : ℤ) - 0)).toNat = 0 := by decide
    rw [hk1, hk2]
    have hq : t * 2 ^ 52 / t = 2 ^ 52 := Nat.mul_div_cancel_left _ ht
    have hr : t * 2 ^ 52 % t = 0 := Nat.mul_mod_right t _
    simp [hq, hr, ht]
  unfold jsProgressPercent
  rw [if_neg h]
  simp only [hd]
  decide

/-- Claim C2 counterexample: for the job with 40 tasks of which 23 are
completed, the program's binary64 evaluation of
`Math.round((23 / 40) * 100)` yields 57 (the double product is
57.49999999999999), while the claimed half-up rounding of the exact
rational gives 58. -/
theorem progress_rounding_claim_cex :
    (toJobSession c2BadJob).totalTasks = 40 ∧
    (toJobSession c2BadJob).completedTasks = 23 ∧
    (toJobSession c2BadJob).progressPercent = 57 ∧
    jsMathRound ((23 : ℚ) / 40 * 100) = 58 := by
  refine ⟨by decide, by decide, by decide, ?_⟩
  have key : (23 : ℚ) / 40 * 100 + 1 / 2 = ((58 : ℕ) : ℚ) := by norm_num
  unfold jsMathRound
  rw [key, Nat.floor_natCast]

/-- Claim C2 (amended): for every Job, the Snapshot Projector returns
`totalTasks` equal to the number of tasks, `completedTasks` equal to the
number of tasks whose completed flag is true (hence
`completedTasks ≤ totalTasks`), `progressPercent` equal to 0 when there are
no tasks and otherwise to `Math.round` applied to the IEEE-754 binary64
evaluation of `completedTasks / totalTasks * 100` (one round-to-nearest-even
at the division and one at the multiplication; this agrees with exact
half-up rounding at the endpoints — 0 when nothing is completed and 100
when everything is — but can differ by one elsewhere, the final `Math.round`
itself being exact half-up rounding of the resulting double), and
`allCompleted` true exactly when there is at least one task and all tasks
are completed — so a job with zero tasks has `progressPercent` 0 and
`allCompleted` false. -/
theorem toJobSession_projection_correct_amended (job : Job) :
    (toJobSession job).totalTasks = job.tasks.length ∧
    (toJobSession job).completedTasks =
      (job.tasks.filter (fun task => task.completed)).length ∧
    (toJobSession job).completedTasks ≤ (toJobSession job).totalTasks ∧
    (toJobSession job).progressPercent =
      (if job.tasks.length = 0 then 0
       else jsProgressPercent
         (job.tasks.filter (fun task => task.completed)).length
         job.tasks.length) ∧
    ((job.tasks.filter (fun task => task.completed)).length = 0 →
      (toJobSession job).progressPercent = 0) ∧
    ((job.tasks.filter (fun task => task.completed)).length =
        job.tasks.length → job.tasks.length ≠ 0 →
      (toJobSession job).progressPercent = 100) ∧
    ((toJobSession job).allCompleted = true ↔
      0 < job.tasks.length ∧
        (job.tasks.filter (fun task => task.completed)).length =
          job.tasks.length) ∧
    (job.tasks.length = 0 →
      (toJobSession job).progressPercent = 0 ∧
        (toJobSession job).allCompleted = false) ∧
    (∀ na nb : ℕ, nb ≠ 0 →
      jsMathRoundFrac na nb = jsMathRound ((na : ℚ) / (nb : ℚ))) := by
  refine ⟨rfl, rfl, ?_, rfl, ?_, ?_, ?_, ?_, jsMathRoundFrac_eq⟩
  · exact List.length_filter_le _ _
  · intro h
    by_cases ht : job.tasks.length = 0
    · simp [toJobSession, ht]
    · simp [toJobSession, ht, h, jsProgressPercent]
  · intro hc hlen
    have h4 : (toJobSession job).progressPercent =
        (if job.tasks.length = 0 then 0
         else jsProgressPercent
           (job.tasks.filter (fun task => task.completed)).length
           job.tasks.length) := rfl
    rw [h4, if_neg hlen, hc, jsProgressPercent_self _ hlen]
  · simp [toJobSession]
  · intro h
    simp [toJobSession, h]

/-- Witness for the amended claim C2: a fully completed four-task job
projects to 100 percent with `allCompleted`, and the two-of-three job
projects to 67 percent. -/
theorem toJobSession_projection_correct_amended_witness :
    (toJobSession c2DoneJob).progressPercent = 100 ∧
    (toJobSession c2DoneJob).allCompleted = true ∧
    (toJobSession c2Job).progressPercent = 67 := by
  refine ⟨?_, ?_, ?_⟩
  · exact (toJobSession_projection_correct_amended c2DoneJob).2.2.2.2.2.1
      (by decide) (by decide)
  · exact ((toJobSession_projection_correct_amended
      c2DoneJob).2.2.2.2.2.2.1).mpr (by decide)
  · have h4 := (toJobSession_projection_correct_amended c2Job).2.2.2.1
    rw [h4]
    decide

/-- Inserting a note into a list only adds it in front of the notes sharing
its creation time: filtering any creation-time class commutes with the
insertion step of the stable sort. -/
theorem filter_orderedInsert_key (k : Nat) (x : JobNoteEntry) :
    ∀ l : List JobNoteEntry,
      (List.orderedInsert noteLe x l).filter (fun n => n.createdAt == k) =
        (if x.createdAt = k
         then x :: l.filter (fun n => n.createdAt == k)
         else l.filter (fun n => n.createdAt == k))
  | [] => by
      by_cases hx : x.createdAt = k <;>
        simp [List.orderedInsert, List.filter_cons, hx, beq_iff_eq]
  | y :: ys => by
      by_cases hxy : noteLe x y
      · by_cases hx : x.createdAt = k <;>
          simp [List.orderedInsert, hxy, List.filter_cons, hx, beq_iff_eq]
      · have hlt : x.createdAt < y.createdAt := by
          unfold noteLe at hxy
          omega
        have ih := filter_orderedInsert_key k x ys
        by_cases hx : x.createdAt = k
        · have hy : ¬(y.createdAt = k) := by omega
          simp [List.orderedInsert, hxy, List.filter_cons, hx, hy, ih, beq_iff_eq]
        · simp [List.orderedInsert, hxy, List.filter_cons, hx, ih, beq_iff_eq]

/-- Stability of `sortNoteEntriesDesc`: within each creation-time class the
sorted output lists the notes in their original insertion order. -/
theorem filter_sortNoteEntriesDesc (k : Nat) :
    ∀ l : List JobNoteEntry,
      (sortNoteEntriesDesc l).filter (fun n => n.createdAt == k) =
        l.filter (fun n => n.createdAt == k)
  | [] => rfl
  | x :: xs => by
      have ih := filter_sortNoteEntriesDesc k xs
      unfold sortNoteEntriesDesc at ih ⊢
      rw [List.insertionSort, filter_orderedInsert_key, ih]
      by_cases hx : x.createdAt = k <;> simp [List.filter_cons, hx, beq_iff_eq]

/-- Claim C8: for every Job, the Snapshot lists `noteEntries` as a
permutation of the job's notes ordered by creation time descending, with
ties between equal creation times kept in their original insertion order
(each creation-time class filters out unchanged), and lists `tasks` exactly
as stored on the Job (canonical creation order, never re-sorted). -/
theorem snapshot_notes_sorted_stable_tasks_order (job : Job) (k : Nat) :
    List.Perm (toJobSession job).noteEntries job.noteEntries ∧
    List.Pairwise (fun a b : JobNoteEntry => b.createdAt ≤ a.createdAt)
      (toJobSession job).noteEntries ∧
    (toJobSession job).noteEntries.filter (fun n => n.createdAt == k) =
      job.noteEntries.filter (fun n => n.createdAt == k) ∧
    (toJobSession job).tasks = job.tasks := by
  refine ⟨?_, ?_, ?_, rfl⟩
  · exact List.perm_insertionSort noteLe job.noteEntries
  · exact List.sorted_insertionSort noteLe job.noteEntries
  · exact filter_sortNoteEntriesDesc k job.noteEntries

/-- Claim C9: the Snapshot Projector is pure and idempotent — a call leaves
the input Job (including the order of its `noteEntries` and `tasks` arrays)
unchanged, projecting the unchanged Job again yields an identical Snapshot,
and the note-sorting pipeline is idempotent on its own output. -/
theorem projector_pure_idempotent (job : Job) :
    (projectCall job).2 = job ∧
    (projectCall ((projectCall job).2)).1 = (projectCall job).1 ∧
    sortNoteEntriesDesc (sortNoteEntriesDesc job.noteEntries) =
      sortNoteEntriesDesc job.noteEntries ∧
    (toJobSession job).tasks = job.tasks := by
  refine ⟨rfl, rfl, ?_, rfl⟩
  exact List.Sorted.insertionSort_eq
    (List.sorted_insertionSort noteLe job.noteEntries)

/-- The job-counter key space and the owner-counter key space are disjoint:
the two Redis key prefixes differ. -/
theorem sequenceKey_ne_ownerSequenceKey (a b : String) :
    sequenceKey a ≠ ownerSequenceKey b := by
  intro h
  have hd : (sequenceKey a).data = (ownerSequenceKey b).data :=
    congrArg String.data h
  unfold sequenceKey ownerSequenceKey at hd
  rw [String.data_append, String.data_append] at hd
  have h12 : ("trackmyfix:job:seq:".data ++ a.data).take 12 =
      ("trackmyfix:owner:seq:".data ++ b.data).take 12 := by rw [hd]
  rw [List.take_append_of_le_length (by decide),
    List.take_append_of_le_length (by decide)] at h12
  exact absurd h12 (by decide)

/-- Claim C7: for every Job, `emitJobUpdated` bumps exactly the Sequence
Counter keyed by the job's identifier and the one keyed by its owner's
identifier (every other key is untouched, and with no configured counter
client the increments degrade to silent no-ops), while the value returned
to the mutating caller is always a plain success — no internal error of the
background increments is raised into the calling mutation. -/
theorem emitJobUpdated_increments_and_shields_caller
    (available : Bool) (store : CounterStore) (job : Job) :
    (emitJobUpdatedCall available store job).1 = Except.ok () ∧
    emitJobUpdated true store job (sequenceKey job.id) =
      store (sequenceKey job.id) + 1 ∧
    emitJobUpdated true store job (ownerSequenceKey job.ownerId) =
      store (ownerSequenceKey job.ownerId) + 1 ∧
    (∀ k : String,
      emitJobUpdated available store job k =
        if available &&
            (k == sequenceKey job.id || k == ownerSequenceKey job.ownerId)
        then store k + 1 else store k) := by
  have hne := sequenceKey_ne_ownerSequenceKey job.id job.ownerId
  have hne2 : ownerSequenceKey job.ownerId ≠ sequenceKey job.id :=
    fun h => hne h.symm
  refine ⟨rfl, ?_, ?_, ?_⟩
  · simp [emitJobUpdated, incrementJobSequence, incrementOwnerSequence,
      redisIncr, hne, hne2]
  · simp [emitJobUpdated, incrementJobSequence, incrementOwnerSequence,
      redisIncr, hne, hne2]
  · intro k
    by_cases hk1 : k = sequenceKey job.id
    · subst hk1
      cases available <;>
        simp [emitJobUpdated, incrementJobSequence, incrementOwnerSequence,
          redisIncr, hne, hne2]
    · by_cases hk2 : k = ownerSequenceKey job.ownerId
      · subst hk2
        cases available <;>
          simp [emitJobUpdated, incrementJobSequence, incrementOwnerSequence,
            redisIncr, hne, hne2]
      · cases available <;>
          simp [emitJobUpdated, incrementJobSequence, incrementOwnerSequence,
            redisIncr, hk1, hk2]

/-- Claim C1 (evaluating the code at the failing input): a connected Job
Stream Session reacts to an advance of the job's Sequence Counter with no
action at all — it never issues a counter read on any event, and instead it
pushes a freshly projected snapshot exactly when the in-process
`onJobUpdated` emitter callback fires.  Change detection for job streams is
therefore in-process event delivery, not counter polling. -/
theorem job_stream_detection_is_in_process_events :
    jobStreamStep { subscribed := true, heartbeatActive := true }
        (JobStreamEvent.counterAdvanced 1) =
      ({ subscribed := true, heartbeatActive := true }, []) ∧
    jobStreamStep { subscribed := true, heartbeatActive := true }
        (JobStreamEvent.emitted wJob) =
      ({ subscribed := true, heartbeatActive := true },
        [JobStreamAction.updatedPush (toJobSession wJob)]) ∧
    (∀ (s : JobStreamSessionState) (e : JobStreamEvent),
      ((jobStreamStep s e).2.all
        fun a => !(a == JobStreamAction.counterRead)) = true) := by
  refine ⟨rfl, rfl, ?_⟩
  intro s e
  cases e <;> simp [jobStreamStep] <;> split_ifs <;> simp

/-- Claim C3: a job stream connection request with an invalid role, a
missing job, or a token that does not exactly match the job's corresponding
token field is answered with a bare 401 or 404 response, and no data event
(neither `connected` nor `job.updated`) is ever delivered on that
connection. -/
theorem job_stream_unauthorized_no_events (store : StoreData) (jobId : String)
    (role token : Option String)
    (h : (role ≠ some "customer" ∧ role ≠ some "technician") ∨
      getJobById store jobId = none ∨
      (∃ job, getJobById store jobId = some job ∧
        jobStreamAuthorized role token job = false)) :
    (jobStreamConnect store jobId role token = Except.error 401 ∨
      jobStreamConnect store jobId role token = Except.error 404) ∧
    initialJobStreamEvents (jobStreamConnect store jobId role token) = [] := by
  by_cases h1 : (role ≠ some "customer" ∧ role ≠ some "technician") ∨
      token = none ∨ token = some ""
  · rw [jobStreamConnect, if_pos h1]
    exact ⟨Or.inl rfl, rfl⟩
  · rw [jobStreamConnect, if_neg h1]
    rcases h with hrole | hnone | ⟨job, hjob, hauth⟩
    · exact absurd (Or.inl hrole) h1
    · rw [hnone]
      exact ⟨Or.inr rfl, rfl⟩
    · rw [hjob]
      simp [hauth, initialJobStreamEvents]

/-- Witness for claim C3: opening the job stream for the stored job with
role `customer` and a wrong token yields a bare 401 and no data event. -/
theorem job_stream_unauthorized_no_events_witness :
    (jobStreamConnect wStore "job-1" (some "customer") (some "wrong") =
        Except.error 401 ∨
      jobStreamConnect wStore "job-1" (some "customer") (some "wrong") =
        Except.error 404) ∧
    initialJobStreamEvents
      (jobStreamConnect wStore "job-1" (some "customer") (some "wrong")) =
        [] :=
  job_stream_unauthorized_no_events wStore "job-1" (some "customer")
    (some "wrong")
    (Or.inr (Or.inr ⟨wJob, by decide, by decide⟩))

/-- Once an owner stream session is closed it stays closed: no event
re-opens it. -/
theorem ownerStreamStep_closed_preserved (s : OwnerStreamState)
    (e : OwnerStreamEvent) (h : s.closed = true) :
    (ownerStreamStep s e).1.closed = true := by
  cases e <;> simp only [ownerStreamStep] <;> split_ifs <;> simp [h]

/-- A single step of a closed owner stream session emits neither a data
push nor a keep-alive line. -/
theorem ownerStreamStep_closed_silent (s : OwnerStreamState)
    (e : OwnerStreamEvent) (h : s.closed = true) :
    ((ownerStreamStep s e).2.all
      fun a => !(a == OwnerStreamAction.ownerUpdatedPush) &&
        !(a == OwnerStreamAction.keepAlive)) = true := by
  cases e
  all_goals simp only [ownerStreamStep]
  all_goals first
  | rfl
  | (split_ifs <;> simp_all)

/-- A whole trace run from a closed owner stream session emits neither a
data push nor a keep-alive line. -/
theorem runOwnerStream_closed_silent :
    ∀ (events : List OwnerStreamEvent) (s : OwnerStreamState),
      s.closed = true →
      ((runOwnerStream s events).2.all
        fun a => !(a == OwnerStreamAction.ownerUpdatedPush) &&
          !(a == OwnerStreamAction.keepAlive)) = true
  | [], _, _ => rfl
  | e :: es, s, h => by
      have hstep := ownerStreamStep_closed_silent s e h
      have hrest := runOwnerStream_closed_silent es (ownerStreamStep s e).1
        (ownerStreamStep_closed_preserved s e h)
      simp only [runOwnerStream, List.all_append]
      rw [hstep, hrest]
      rfl

/-- A job stream session whose listener is unsubscribed and whose heartbeat
interval is cleared produces no action on any trace. -/
theorem runJobStream_closed_silent :
    ∀ events : List JobStreamEvent,
      (runJobStream { subscribed := false, heartbeatActive := false }
        events).2 = []
  | [] => rfl
  | e :: es => by
      have ih := runJobStream_closed_silent es
      cases e <;> simp [runJobStream, jobStreamStep] <;> exact ih

/-- Claim C4: `cancel()` stops the poll timer and the keep-alive timer
together and marks the session closed (for the job stream it removes the
listener and stops the heartbeat), and after a session is closed no push of
any kind — neither a data event nor a keep-alive — is ever observable
again, whatever events (counter advances, read completions, stray ticks,
in-process emissions) occur afterwards. -/
theorem stream_sessions_silent_after_close :
    (∀ s : OwnerStreamState,
      ownerStreamStep s OwnerStreamEvent.cancel =
        ({ s with closed := true, pollerActive := false, heartbeatActive := false }, [])) ∧
    (∀ (s : OwnerStreamState) (events : List OwnerStreamEvent),
      s.closed = true →
      ((runOwnerStream s events).2.all
        fun a => !(a == OwnerStreamAction.ownerUpdatedPush) &&
          !(a == OwnerStreamAction.keepAlive)) = true) ∧
    (∀ s : JobStreamSessionState,
      jobStreamStep s JobStreamEvent.cancel =
        ({ subscribed := false, heartbeatActive := false }, [])) ∧
    (∀ events : List JobStreamEvent,
      (runJobStream { subscribed := false, heartbeatActive := false }
        events).2 = []) :=
  ⟨fun _ => rfl,
   fun s events h => runOwnerStream_closed_silent events s h,
   fun _ => rfl,
   runJobStream_closed_silent⟩

/-- Witness for claim C4 at the closed state `c4ClosedState` and a trace
holding a late read completion, a stray heartbeat tick, a stray poll tick
and an in-process emission: nothing observable is pushed. -/
theorem stream_sessions_silent_after_close_witness :
    ((runOwnerStream c4ClosedState
        [OwnerStreamEvent.pollSuccess 5, OwnerStreamEvent.heartbeatTick,
          OwnerStreamEvent.pollTick]).2.all
      fun a => !(a == OwnerStreamAction.ownerUpdatedPush) &&
        !(a == OwnerStreamAction.keepAlive)) = true ∧
    (runJobStream { subscribed := false, heartbeatActive := false }
      [JobStreamEvent.emitted wJob, JobStreamEvent.heartbeatTick]).2 = [] :=
  ⟨stream_sessions_silent_after_close.2.1 c4ClosedState
      [OwnerStreamEvent.pollSuccess 5, OwnerStreamEvent.heartbeatTick,
        OwnerStreamEvent.pollTick] rfl,
   stream_sessions_silent_after_close.2.2.2
      [JobStreamEvent.emitted wJob, JobStreamEvent.heartbeatTick]⟩

/-- Claim C5: the re-entrancy guard — a poll tick that fires while a poll
of the same session is still in flight performs no counter read and no push
and leaves the session state untouched (dropped, not queued); two
back-to-back ticks from a ready session cause exactly one counter read. -/
theorem poll_reentrancy_guard_drops_tick :
    (∀ s : OwnerStreamState, s.polling = true →
      ownerStreamStep s OwnerStreamEvent.pollTick = (s, [])) ∧
    (∀ s : OwnerStreamState,
      s.closed = false → s.polling = false → s.pollerActive = true →
      (runOwnerStream s
        [OwnerStreamEvent.pollTick, OwnerStreamEvent.pollTick]).2 =
        [OwnerStreamAction.counterRead]) := by
  constructor
  · intro s h
    simp only [ownerStreamStep]
    split_ifs with h1 h2
    · rfl
    · rfl
    · exact absurd (Or.inr h) h2
  · intro s h1 h2 h3
    simp [runOwnerStream, ownerStreamStep, h1, h2, h3]

/-- Witness for claim C5: with a poll in flight (`c5BusyState`) a tick is
dropped outright; from a ready session (`c5ReadyState`) two back-to-back
ticks read the counter once. -/
theorem poll_reentrancy_guard_drops_tick_witness :
    ownerStreamStep c5BusyState OwnerStreamEvent.pollTick =
      (c5BusyState, []) ∧
    (runOwnerStream c5ReadyState
      [OwnerStreamEvent.pollTick, OwnerStreamEvent.pollTick]).2 =
      [OwnerStreamAction.counterRead] :=
  ⟨poll_reentrancy_guard_drops_tick.1 c5BusyState rfl,
   poll_reentrancy_guard_drops_tick.2 c5ReadyState rfl rfl rfl⟩

/-- Claim C6 counterexample: at the live session `c6PollingState` with a
poll in flight, a failing counter read is not caught within the tick — the
tick body is `try {...} finally {...}` with no catch clause, so the error
escapes the poll callback. -/
theorem poll_tick_error_not_caught_cex :
    (ownerStreamStep c6PollingState OwnerStreamEvent.pollFailure).2 =
      [OwnerStreamAction.errorEscaped] ∧
    ((ownerStreamStep c6PollingState OwnerStreamEvent.pollFailure).2.all
      fun a => !(a == OwnerStreamAction.errorEscaped)) = false :=
  ⟨rfl, rfl⟩

/-- Claim C6 amended: an error raised inside a poll tick is not caught by
the session — it escapes the tick callback — but the `finally` clause
resets the in-flight guard and the session is neither closed nor are its
timers stopped, so the very next tick polls the counter again; only
authorization failure or client disconnect close the session. -/
theorem poll_tick_error_escapes_guard_reset (s : OwnerStreamState)
    (h : s.polling = true) :
    ownerStreamStep s OwnerStreamEvent.pollFailure =
      ({ s with polling := false }, [OwnerStreamAction.errorEscaped]) ∧
    ({ s with polling := false } : OwnerStreamState).closed = s.closed ∧
    ({ s with polling := false } : OwnerStreamState).pollerActive =
      s.pollerActive ∧
    ({ s with polling := false } : OwnerStreamState).heartbeatActive =
      s.heartbeatActive ∧
    (s.closed = false → s.pollerActive = true →
      ownerStreamStep { s with polling := false } OwnerStreamEvent.pollTick =
        ({ s with polling := true }, [OwnerStreamAction.counterRead])) := by
  refine ⟨?_, rfl, rfl, rfl, ?_⟩
  · simp [ownerStreamStep, h]
  · intro hc hp
    simp [ownerStreamStep, hc, hp]

/-- Witness for the amended claim C6 at the live in-flight state
`c6PollingState`. -/
theorem poll_tick_error_escapes_guard_reset_witness :
    ownerStreamStep c6PollingState OwnerStreamEvent.pollFailure =
      ({ c6PollingState with polling := false },
        [OwnerStreamAction.errorEscaped]) ∧
    ownerStreamStep { c6PollingState with polling := false }
        OwnerStreamEvent.pollTick =
      ({ c6PollingState with polling := true },
        [OwnerStreamAction.counterRead]) :=
  ⟨(poll_tick_error_escapes_guard_reset c6PollingState rfl).1,
   (poll_tick_error_escapes_guard_reset c6PollingState rfl).2.2.2.2 rfl rfl⟩

/-- Updating the first task matching `taskId` in a list whose earlier tasks
all have other ids replaces exactly that task and keeps every other task. -/
theorem updateTaskInList_found (now : Nat) (taskId : String)
    (completed : Option Bool) (t : JobTask) (tpost : List JobTask)
    (ht : t.id = taskId) :
    ∀ tpre : List JobTask, (∀ t2 ∈ tpre, t2.id ≠ taskId) →
      updateTaskInList now taskId completed (tpre ++ t :: tpost) =
        some (tpre ++
          { t with
            completed := completed.getD (!t.completed),
            updatedAt := now } :: tpost)
  | [], _ => by simp [updateTaskInList, ht]
  | t2 :: rest, hpre => by
      have h2 : t2.id ≠ taskId := hpre t2 (List.mem_cons_self t2 rest)
      have ih := updateTaskInList_found now taskId completed t tpost ht rest
        (fun x hx => hpre x (List.mem_cons_of_mem t2 hx))
      simp [updateTaskInList, h2, ih]

/-- Updating the first job matching the technician token in a list whose
earlier jobs all have other tokens replaces exactly that job and keeps
every other job. -/
theorem updateTaskInJobs_found (now : Nat) (tok taskId : String)
    (completed : Option Bool) (j : Job) (post : List Job)
    (newTasks : List JobTask) (hj : j.technicianToken = tok)
    (htasks : updateTaskInList now taskId completed j.tasks = some newTasks) :
    ∀ pre : List Job, (∀ j2 ∈ pre, j2.technicianToken ≠ tok) →
      updateTaskInJobs now tok taskId completed (pre ++ j :: post) =
        Except.ok
          (pre ++ { j with tasks := newTasks, updatedAt := now } :: post,
            some { j with tasks := newTasks, updatedAt := now })
  | [], _ => by simp [updateTaskInJobs, hj, htasks]
  | j2 :: rest, hpre => by
      have h2 : j2.technicianToken ≠ tok := hpre j2 (List.mem_cons_self j2 rest)
      have ih := updateTaskInJobs_found now tok taskId completed j post
        newTasks hj htasks rest (fun x hx => hpre x (List.mem_cons_of_mem j2 hx))
      simp [updateTaskInJobs, h2, ih]

/-- Claim C10: against a store whose first job matching the technician
token is `j` and whose first task matching `taskId` within `j` is `t`, the
task-update operation succeeds; with the `completed` parameter omitted
(`none`, as the route produces for any non-boolean body field) it inverts
`t.completed`, with an explicit boolean it sets it; only that task's
`completed` and `updatedAt` fields and the job's `updatedAt` change, every
other task, every other field of the job (notes, assignment, tokens,
identifiers), every other job, and the owners and templates of the store
are unchanged. -/
theorem updateTask_toggle_set_frame (now : Nat) (store : StoreData)
    (tok taskId : String) (completed : Option Bool)
    (pre post : List Job) (j : Job) (tpre tpost : List JobTask) (t : JobTask)
    (hstore : store.jobs = pre ++ j :: post)
    (hpre : ∀ j2 ∈ pre, j2.technicianToken ≠ tok)
    (hj : j.technicianToken = tok)
    (htasks : j.tasks = tpre ++ t :: tpost)
    (htpre : ∀ t2 ∈ tpre, t2.id ≠ taskId)
    (ht : t.id = taskId) :
    (updateTaskByTechnicianToken now store tok taskId completed =
      Except.ok
        ({ store with jobs := pre ++
            { j with
              tasks := tpre ++
                { t with
                  completed :=
                    (match completed with
                     | some b => b
                     | none => !t.completed),
                  updatedAt := now } :: tpost,
              updatedAt := now } :: post },
          some
            { j with
              tasks := tpre ++
                { t with
                  completed :=
                    (match completed with
                     | some b => b
                     | none => !t.completed),
                  updatedAt := now } :: tpost,
              updatedAt := now })) ∧
    (∀ b : Bool, patchCompletedParam (JsonValue.jbool b) = some b) ∧
    patchCompletedParam JsonValue.jnull = none ∧
    patchCompletedParam JsonValue.jabsent = none ∧
    (∀ s2 : String, patchCompletedParam (JsonValue.jstr s2) = none) ∧
    (∀ n : Int, patchCompletedParam (JsonValue.jnum n) = none) := by
  have hmatch : (match completed with
      | some b => b
      | none => !t.completed) = completed.getD (!t.completed) := by
    cases completed <;> rfl
  have hlist := updateTaskInList_found now taskId completed t tpost ht tpre htpre
  have hjobs := updateTaskInJobs_found now tok taskId completed j post
    (tpre ++
      { t with
        completed := completed.getD (!t.completed),
        updatedAt := now } :: tpost)
    hj (by rw [htasks]; exact hlist) pre hpre
  refine ⟨?_, fun _ => rfl, rfl, rfl, fun _ => rfl, fun _ => rfl⟩
  rw [hmatch]
  unfold updateTaskByTechnicianToken
  rw [hstore, hjobs]

/-- Witness for claim C10: toggling the not-yet-completed task `wTask` of
`wJobWithTask` with the `completed` parameter omitted marks it completed
and refreshes the two timestamps. -/
theorem updateTask_toggle_set_frame_witness :
    updateTaskByTechnicianToken 100 wStoreWithTask "tech-token" "task-1"
        none =
      Except.ok
        ({ wStoreWithTask with jobs :=
            [{ wJobWithTask with
                tasks := [{ wTask with completed := true, updatedAt := 100 }],
                updatedAt := 100 }] },
          some
            { wJobWithTask with
              tasks := [{ wTask with completed := true, updatedAt := 100 }],
              updatedAt := 100 }) := by
  have h := (updateTask_toggle_set_frame 100 wStoreWithTask "tech-token"
    "task-1" none [] [] wJobWithTask [] [] wTask rfl (by simp) (by decide)
    rfl (by simp) (by decide)).1
  simpa using h
